import Mathlib

/-!
Verification of the cardiac_vus variant feature pipeline.

Shallow embedding of the Python sources:
  scripts/build_features.py   (CSQ header parsing, canonical selection, GTEx join, labels)
  scripts/build_dataset.py    (labels_from_clinvar)
  scripts/build_dbnsfp_subset.py (variant parsing, shard scanning, exit statuses)
  app.py                      (_build_features_from_vep: the tolerant GTEx join)

Lines are modelled as logical lines (no trailing newline); Python's
`line.rstrip("\n")` is therefore the identity in the model.
-/

namespace CardiacVus

/-! ## String utilities mirroring the Python primitives -/

/-- Boolean test that `pat` is a prefix of `l`, by direct recursion on characters. -/
def leadsWith : List Char → List Char → Bool
  | [], _ => true
  | _ :: _, [] => false
  | a :: as, b :: bs => a == b && leadsWith as bs

/-- Python `s.startswith(pat)`. -/
def pyStartsWith (pat s : String) : Bool := leadsWith pat.data s.data

/-- Python `str.split(sep)` for a single-character separator, over the character list.
Always returns at least one piece; splitting the empty string gives `[[]]`. -/
def splitOnChar (sep : Char) : List Char → List (List Char)
  | [] => [[]]
  | c :: rest =>
    let r := splitOnChar sep rest
    if c == sep then [] :: r
    else match r with
      | [] => [[c]]
      | h :: t => (c :: h) :: t

/-- Python `s.split(sep)` for a single-character separator. -/
def pySplit (sep : Char) (s : String) : List String :=
  (splitOnChar sep s.data).map (fun cs => String.mk cs)

/-- Python whitespace for `str.strip()` (the repo only feeds it ASCII). -/
def isPySpace (c : Char) : Bool :=
  c == ' ' || c == '\t' || c == '\n' || c == '\r' || c == '\x0b' || c == '\x0c'

/-- Python `s.strip()`. -/
def pyStrip (s : String) : String :=
  String.mk (((s.data.dropWhile isPySpace).reverse.dropWhile isPySpace).reverse)

/-- Digit-string accumulation for `int()`. -/
def digitsToNat (acc : Nat) : List Char → Option Nat
  | [] => some acc
  | c :: rest =>
    if '0' ≤ c ∧ c ≤ '9' then digitsToNat (acc * 10 + (c.toNat - '0'.toNat)) rest
    else none

/-- Python `int(s)` on decimal literals: optional surrounding whitespace, optional
sign, then a nonempty digit run; `none` models the `ValueError` path. -/
def pyInt? (s : String) : Option Int :=
  match (pyStrip s).data with
  | [] => none
  | '+' :: rest =>
    if rest.isEmpty then none else (digitsToNat 0 rest).map Int.ofNat
  | '-' :: rest =>
    if rest.isEmpty then none else (digitsToNat 0 rest).map (fun n => -(n : Int))
  | l => (digitsToNat 0 l).map Int.ofNat

/-- Scanner for `re.search(key + "([^;]+)", s)` with a literal `key` such as
`"CSQ="` or `"CLNSIG="`: at each position, if the key matches and at least one
non-semicolon character follows, the greedy capture is the maximal such run;
otherwise scanning resumes at the next character. -/
def searchValGo (pat : List Char) : List Char → Option (List Char)
  | [] => none
  | l@(_ :: rest) =>
    if leadsWith pat l then
      let v := (l.drop pat.length).takeWhile (fun c => !(c == ';'))
      if v.isEmpty then searchValGo pat rest else some v
    else searchValGo pat rest

/-- First `key=value` capture in an INFO column, per `re.search(r"KEY=([^;]+)")`. -/
def searchKeyValue (key : String) (s : String) : Option String :=
  (searchValGo key.data s.data).map (fun cs => String.mk cs)

/-! ## CSQ header capture (build_features.py `parse_csq_header`, lines 15-25;
identical code in app.py `_parse_csq_header`, lines 115-127) -/

/-- Suffix after the first occurrence of `pat`, modelling the leftmost start of
`re.search(r"Format: (.*)\">")`. -/
def findAfter (pat : List Char) : List Char → Option (List Char)
  | [] => if leadsWith pat [] then some [] else none
  | l@(_ :: rest) =>
    if leadsWith pat l then some (l.drop pat.length) else findAfter pat rest

/-- Characters before the last occurrence of `pat`, modelling the greedy `(.*)`
capture that must be followed by `pat`; `none` when `pat` never occurs. -/
def captureBeforeLast (pat : List Char) : List Char → Option (List Char)
  | [] => none
  | c :: rest =>
    match captureBeforeLast pat rest with
    | some cap => some (c :: cap)
    | none => if leadsWith pat (c :: rest) then some [] else none

/-- Capture of `re.search(r"Format: (.*)\">", line)` (build_features.py line 20). -/
def formatClause (line : String) : Option String :=
  match findAfter ("Format: ".data) line.data with
  | none => none
  | some after => (captureBeforeLast ("\">".data) after).map (fun cs => String.mk cs)

/-- Loop body of `parse_csq_header`: track the captured field list, updating it on
each `##INFO=<ID=CSQ` line whose Format clause matches, and stop at `#CHROM`. -/
def csqHeaderGo (acc : List String) : List String → List String
  | [] => acc
  | line :: rest =>
    let acc' := if pyStartsWith "##INFO=<ID=CSQ" line then
        match formatClause line with
        | some s => pySplit '|' s
        | none => acc
      else acc
    if pyStartsWith "#CHROM" line then acc' else csqHeaderGo acc' rest

/-- build_features.py `parse_csq_header` over the file's lines. -/
def parse_csq_header (lines : List String) : List String := csqHeaderGo [] lines

/-! ## Canonical sub-block selection (build_features.py lines 49-62; identical
code in app.py lines 155-167) -/

/-- Attribute lookup in `{k: v for k, v in zip(csq_fields, vals)}`: the zip stops
at the shorter list and a duplicated key keeps its last value. -/
def rowGet (fields vals : List String) (key : String) : Option String :=
  (((fields.zip vals).filter (fun kv => kv.1 == key)).getLast?).map (fun kv => kv.2)

/-- A sub-block is retained when its pipe-split value count matches the captured
field count (`len(vals) != len(csq_fields)` is the discard test, line 52). -/
def isRetained (fields : List String) (csq : String) : Bool :=
  (pySplit '|' csq).length == fields.length

/-- The canonical test `row.get('CANONICAL') == 'YES'` (line 56). -/
def isCanonical (fields : List String) (csq : String) : Bool :=
  rowGet fields (pySplit '|' csq) "CANONICAL" == some "YES"

/-- The selection loop with its `best` accumulator and early `break` on a
canonical sub-block (build_features.py lines 49-60). -/
def selectGo (fields : List String) : Option String → List String → Option String
  | best, [] => best
  | best, csq :: rest =>
    if isRetained fields csq then
      if isCanonical fields csq then some csq
      else selectGo fields (some (best.getD csq)) rest
    else selectGo fields best rest

/-- The selected sub-block for one variant's comma-split CSQ payload. -/
def selectBest (fields : List String) (blocks : List String) : Option String :=
  selectGo fields none blocks

/-- Data-line decomposition before selection (build_features.py lines 38-48):
skip comment lines, require at least 8 tab-separated columns, and find the CSQ
payload in the INFO column. -/
def lineInfoPayload (line : String) : Option (List String × String) :=
  if pyStartsWith "#" line then none
  else
    let parts := pySplit '\t' line
    if parts.length < 8 then none
    else (searchKeyValue "CSQ=" (parts.getD 7 "")).map (fun payload => (parts, payload))

/-- One data line's contribution to the feature records (build_features.py
lines 38-73): the columns together with the selected sub-block, or `none` when
the line is skipped (`if best is None: continue`, line 61). -/
def lineRow (fields : List String) (line : String) : Option (List String × String) :=
  (lineInfoPayload line).bind (fun pp =>
    (selectBest fields (pySplit ',' pp.2)).map (fun best => (pp.1, best)))

/-! ## Label resolution (build_dataset.py `labels_from_clinvar`, lines 14-40;
the same code appears in build_features.py lines 106-123 and app.py 208-232) -/

/-- CLNSIG term extraction for one line (build_dataset.py lines 21-32): skip
comments, require at least 8 columns, find the CLNSIG capture in the INFO
column, split on commas and strip each term. The Python set is modelled as the
list of terms; only membership is ever consulted. -/
def lineClnsigTerms (line : String) : Option (List String) :=
  if pyStartsWith "#" line then none
  else
    let parts := pySplit '\t' line
    if parts.length < 8 then none
    else (searchKeyValue "CLNSIG=" (parts.getD 7 "")).map
      (fun v => (pySplit ',' v).map pyStrip)

/-- The resolution policy (build_dataset.py lines 33-37): pathogenic membership
first, then benign membership, else no label. -/
def labelOfSigs (sigs : List String) : Option Nat :=
  if sigs.contains "Pathogenic" || sigs.contains "Likely_pathogenic" then some 1
  else if sigs.contains "Benign" || sigs.contains "Likely_benign" then some 0
  else none

/-- The label recorded for one clinical-significance data line, if any
(build_dataset.py lines 38-39: the key is stored only when a label resolved). -/
def lineLabel (line : String) : Option Nat :=
  (lineClnsigTerms line).bind labelOfSigs

/-! ## Expression join (build_features.py lines 82-98, app.py lines 186-206,
train_xgb.py `prep` lines 28-38) -/

/-- pandas `drop_duplicates('gene')` keeping the first row per gene, with the
accumulator of already-seen gene symbols. -/
def dropDupGo {β : Type} : List String → List (String × β) → List (String × β)
  | _, [] => []
  | seen, g :: rest =>
    if g.1 ∈ seen then dropDupGo seen rest
    else g :: dropDupGo (g.1 :: seen) rest

/-- `gtex.drop_duplicates('gene')` (build_features.py line 97). -/
def drop_duplicates {β : Type} (gtex : List (String × β)) : List (String × β) :=
  dropDupGo [] gtex

/-- pandas `df.merge(gtex, left_on='SYMBOL', right_on='gene', how='left')`
(build_features.py line 98): each left row produces one output row per matching
right row, or a single row with null right values when nothing matches. A left
row is modelled as its SYMBOL paired with its remaining payload. -/
def mergeLeft {α β : Type} (df : List (String × α)) (gtex : List (String × β)) :
    List ((String × α) × Option β) :=
  df.flatMap (fun r =>
    match gtex.filter (fun g => g.1 == r.1) with
    | [] => [(r, none)]
    | ms => ms.map (fun g => (r, some g.2)))

/-- The matrix-build default fill `fillna(0.0)` applied to the two expression
columns (train_xgb.py line 36; app.py line 245): absent becomes exactly 0.0
here, not during the join. -/
def fillExpr (v : Option (ℚ × ℚ)) : ℚ × ℚ := v.getD (0, 0)

/-- The raw expression table as loaded by `pd.read_csv`: its column names, and
its rows already keyed by the value of the derived gene column. -/
structure RawTable where
  cols : List String
  rows : List (String × ℚ × ℚ)

/-- After the rename chain (build_features.py lines 84-96 / app.py 189-201) the
column selection `gtex[['gene'] + ...]` succeeds exactly when one of `gene`,
`Description`, `Name` was among the loaded columns. -/
def hasGeneColumn (cols : List String) : Bool :=
  cols.contains "gene" || cols.contains "Description" || cols.contains "Name"

/-- app.py lines 186-206: the whole GTEx load/join is wrapped in
`try: ... except Exception: pass`, so a missing file (`none`) or a table with
no derivable gene column leaves `df` unchanged, silently, with no expression
columns; the function is total and never aborts. -/
def appGtexJoin {α : Type} (df : List (String × α)) (gtexFile : Option RawTable) :
    (List ((String × α) × Option (ℚ × ℚ))) ⊕ (List (String × α)) :=
  match gtexFile with
  | none => Sum.inr df
  | some t =>
    if hasGeneColumn t.cols then Sum.inl (mergeLeft df (drop_duplicates t.rows))
    else Sum.inr df

/-- scripts/build_features.py lines 82-98: no handler wraps the GTEx stage, so
`pd.read_csv` on a missing or unreadable file raises `FileNotFoundError` and
the column selection raises `KeyError` when no gene column can be derived;
`Except.error` models the uncaught exception aborting the run. -/
def scriptGtexJoin {α : Type} (df : List (String × α)) (gtexFile : Option RawTable) :
    Except String (List ((String × α) × Option (ℚ × ℚ))) :=
  match gtexFile with
  | none => Except.error "FileNotFoundError"
  | some t =>
    if hasGeneColumn t.cols then Except.ok (mergeLeft df (drop_duplicates t.rows))
    else Except.error "KeyError"

/-! ## Reference subset extractor (scripts/build_dbnsfp_subset.py) -/

/-- A needed (position, reference, alternate) triple. -/
abbrev Triple := Int × String × String

/-- build_dbnsfp_subset.py `norm_chr` (lines 11-17). -/
def norm_chr (ch : String) : String :=
  let ch := pyStrip ch
  let ch := if pyStartsWith "chr" ch then String.mk (ch.data.drop 3) else ch
  if ch == "MT" || ch == "Mt" || ch == "mt" then "M" else ch

/-- One line's contribution to the needed-variant map
(build_dbnsfp_subset.py `parse_vcf_variants`, lines 24-38): skip empty and
comment lines and lines with fewer than 5 columns; split the ALT column on
commas and emit one (chromosome, position, ref, alt) entry per alternate
allele; the per-iteration `int(pos)` failure (`except ValueError: continue`)
contributes nothing. -/
def lineTriples (line : String) : List (String × Triple) :=
  if line == "" || pyStartsWith "#" line then []
  else
    let parts := pySplit '\t' line
    if parts.length < 5 then []
    else
      (pySplit ',' (parts.getD 4 "")).filterMap (fun a =>
        match pyInt? (parts.getD 1 "") with
        | none => none
        | some p => some (norm_chr (parts.getD 0 ""), (p, parts.getD 3 "", a)))

/-- Adding one entry to the needed map `need : defaultdict(set)`: the key list
keeps insertion order (Python dicts are insertion-ordered) and each
chromosome's triples are a set, modelled as a duplicate-free list. -/
def insertNeed (need : List (String × List Triple)) (ch : String) (t : Triple) :
    List (String × List Triple) :=
  match need with
  | [] => [(ch, [t])]
  | (c, ts) :: rest =>
    if c == ch then (c, if ts.contains t then ts else ts ++ [t]) :: rest
    else (c, ts) :: insertNeed rest ch t

/-- build_dbnsfp_subset.py `parse_vcf_variants` over the file's lines. -/
def parse_vcf_variants (lines : List String) : List (String × List Triple) :=
  lines.foldl (fun need line =>
    (lineTriples line).foldl (fun nd ct => insertNeed nd ct.1 ct.2) need) []

/-- The per-position lookup `by_pos` (lines 90-92): the (ref, alt) pairs
acceptable at one position. -/
def by_pos (triples : List Triple) (p : Int) : List (String × String) :=
  (triples.filter (fun t => t.1 == p)).map (fun t => (t.2.1, t.2.2))

/-- The per-row retention test (lines 99-107): at least 4 columns, an integer
position in column 2, and `(ref, alt) in by_pos.get(pos, ())` for columns 3-4. -/
def keepRow (triples : List Triple) (line : String) : Bool :=
  let parts := pySplit '\t' line
  if parts.length < 4 then false
  else match pyInt? (parts.getD 1 "") with
    | none => false
    | some p => (by_pos triples p).contains (parts.getD 2 "", parts.getD 3 "")

/-- One shard scan (lines 93-109): the first line is unconditionally skipped
(`hdr_seen`), every later line is written iff `keepRow` holds. -/
def scanShard (triples : List Triple) (lines : List String) : List String :=
  match lines with
  | [] => []
  | _ :: rest => rest.filter (keepRow triples)

/-- The chromosome loop of `main` (lines 86-109): resolve each chromosome's
shard from the catalog (`guess_chr_file`, whose `FileNotFoundError` is not
caught anywhere in `main` and therefore aborts the run), and concatenate the
retained rows in needed-map order. The catalog abstracts the two candidate
paths of `guess_chr_file`: `none` means neither exists. -/
def scanChroms (catalog : String → Option (List String)) :
    List (String × List Triple) → Except String (List String)
  | [] => Except.ok []
  | (ch, triples) :: rest =>
    match catalog ch with
    | none => Except.error ch
    | some shardLines =>
      match scanChroms catalog rest with
      | Except.error e => Except.error e
      | Except.ok out => Except.ok (scanShard triples shardLines ++ out)

/-- The header sanity test `if not header or "\t" not in header` (line 75). -/
def headerOk (h : String) : Bool := !(h == "") && h.data.contains '\t'

/-- Terminal outcome of the extractor's `main`. -/
inductive RunOutcome
  | noVariants
  | badHeader
  | shardNotFound (ch : String)
  | noMatches
  | ok (output : List String) (written : Nat)
deriving DecidableEq

/-- build_dbnsfp_subset.py `main` (lines 53-121): empty needed map exits 1;
the header is read from the shard of the first chromosome in the needed map;
a malformed header exits 1; an unresolvable shard aborts with the uncaught
`FileNotFoundError`; zero retained rows exits 2; otherwise the merged output
is the header followed by all retained rows, in order. -/
def runExtract (catalog : String → Option (List String)) (vcfLines : List String) :
    RunOutcome :=
  match parse_vcf_variants vcfLines with
  | [] => RunOutcome.noVariants
  | (c0, t0) :: rest =>
    match catalog c0 with
    | none => RunOutcome.shardNotFound c0
    | some firstLines =>
      if headerOk (firstLines.headD "") then
        match scanChroms catalog ((c0, t0) :: rest) with
        | Except.error ch => RunOutcome.shardNotFound ch
        | Except.ok rows =>
          if rows.length = 0 then RunOutcome.noMatches
          else RunOutcome.ok (firstLines.headD "" :: rows) rows.length
      else RunOutcome.badHeader

/-- Process exit status of each outcome: the two explicit `sys.exit` calls use
1 (no variants, bad header) and 2 (no matching records); an uncaught Python
exception terminates the interpreter with status 1; success exits 0. -/
def exitCode : RunOutcome → Nat
  | RunOutcome.noVariants => 1
  | RunOutcome.badHeader => 1
  | RunOutcome.shardNotFound _ => 1
  | RunOutcome.noMatches => 2
  | RunOutcome.ok _ _ => 0

/-! ## Stream decoding policy

Every text reader in the repository opens files with
`encoding='utf-8', errors='ignore'` (build_features.py lines 11-12,
build_dataset.py lines 10-11, build_dbnsfp_subset.py lines 23, 73, 93,
check_dbnsfp_in_vcf.py lines 21-22, app.py lines 119, 143, 212, 458).
The decode of one stream is modelled from CPython's documented codec error
handlers over units that are either a validly decoded character or an
undecodable byte sequence: `strict` raises `UnicodeDecodeError`, `ignore`
drops the malformed unit, `replace` substitutes U+FFFD. -/

inductive DecodePolicy
  | strict
  | ignoreErrors
  | replaceErrors
deriving DecidableEq

/-- CPython text decoding under an error handler, over classified input units. -/
def decodeWith : DecodePolicy → List (Option Char) → Except String (List Char)
  | DecodePolicy.strict, units =>
    if units.contains none then Except.error "UnicodeDecodeError"
    else Except.ok (units.filterMap id)
  | DecodePolicy.ignoreErrors, units => Except.ok (units.filterMap id)
  | DecodePolicy.replaceErrors, units => Except.ok (units.map (fun u => u.getD '�'))

/-- The error handler every reader in this repository passes: `errors='ignore'`. -/
def open_text_errors : DecodePolicy := DecodePolicy.ignoreErrors

/-! ## The feature builders downstream of record construction

The two builders diverge after zero records: scripts/build_features.py goes
straight to the GTEx merge, while app.py returns the empty frame first. -/

/-- The `want` attribute list of build_features.py lines 30-34 (identical in
app.py lines 135-139). -/
def wantFields : List String :=
  ["Consequence", "IMPACT", "SYMBOL", "gnomADg_AF", "SIFT_pred",
   "Polyphen2_HVAR_pred", "Polyphen2_HDIV_pred", "GERP++_RS",
   "phyloP100way_vertebrate"]

/-- Columns of `pd.DataFrame.from_records(records)` for the records built at
build_features.py lines 64-73: every record carries the five key columns plus
the `want` attributes, so the frame has exactly those columns when at least
one record was produced, while `from_records([])` yields a frame with zero
columns. -/
def featureFrameCols (records : List (List String × String)) : List String :=
  if records.isEmpty then []
  else ["chrom", "pos", "ref", "alt", "id"] ++ wantFields

/-- scripts/build_features.py from record construction through the GTEx merge
(lines 36-98, with a loadable expression table): build one record per data
line, then `df.merge(gtex, left_on='SYMBOL', ...)` (line 98). pandas validates
`left_on` before any row work, so when the frame lacks the `SYMBOL` column —
exactly the zero-record case — the merge raises `KeyError`, and no handler in
the script catches it. -/
def scriptBuildToMerge (lines : List String) :
    Except String (List (List String × String)) :=
  if (featureFrameCols (lines.filterMap (lineRow (parse_csq_header lines)))).contains
      "SYMBOL" then
    Except.ok (lines.filterMap (lineRow (parse_csq_header lines)))
  else Except.error "KeyError"

/-- app.py `_build_features_from_vep` over the same stage (lines 143-206): the
record construction is identical, but `if df.empty: return df` (lines 180-181)
returns the zero-row frame before the merge is ever attempted, so this builder
raises nothing on a schema-less file; the caller reports the empty result
("No variants with usable annotations were found", app.py lines 425-427). -/
def appBuildToMerge (lines : List String) :
    Except String (List (List String × String)) :=
  if (lines.filterMap (lineRow (parse_csq_header lines))).isEmpty then Except.ok []
  else Except.ok (lines.filterMap (lineRow (parse_csq_header lines)))

/-! ## Lemmas about the selection loop -/

lemma selectGo_some (fields : List String) (l : List String) (b : String) :
    selectGo fields (some b) l =
      some (((l.filter (isRetained fields)).find? (isCanonical fields)).getD b) := by
  induction l generalizing b with
  | nil => simp [selectGo]
  | cons csq rest ih =>
    cases hr : isRetained fields csq with
    | false => simp [selectGo, hr, List.filter_cons, ih]
    | true =>
      cases hc : isCanonical fields csq with
      | true => simp [selectGo, hr, hc, List.filter_cons, List.find?_cons]
      | false =>
        simp [selectGo, hr, hc, List.filter_cons, List.find?_cons, ih]

lemma selectBest_eq (fields : List String) (blocks : List String) :
    selectBest fields blocks =
      match (blocks.filter (isRetained fields)).find? (isCanonical fields) with
      | some c => some c
      | none => (blocks.filter (isRetained fields)).head? := by
  induction blocks with
  | nil => simp [selectBest, selectGo]
  | cons csq rest ih =>
    cases hr : isRetained fields csq with
    | false =>
      simpa [selectBest, selectGo, hr, List.filter_cons] using ih
    | true =>
      cases hc : isCanonical fields csq with
      | true => simp [selectBest, selectGo, hr, hc, List.filter_cons, List.find?_cons]
      | false =>
        have h := selectGo_some fields rest csq
        simp only [selectBest, selectGo, hr, hc, if_true, if_false, Bool.false_eq_true,
          List.filter_cons, List.find?_cons, Option.getD_none, Option.getD_some] at *
        rw [h]
        cases hf : (rest.filter (isRetained fields)).find? (isCanonical fields) <;> simp [hf]

lemma splitOnChar_ne_nil (sep : Char) (l : List Char) : splitOnChar sep l ≠ [] := by
  induction l with
  | nil => simp [splitOnChar]
  | cons c rest ih =>
    simp only [splitOnChar]
    by_cases h : (c == sep) = true
    · simp [h]
    · cases hr : splitOnChar sep rest with
      | nil => simp [h, hr]
      | cons a b => simp [h, hr]

lemma pySplit_length_pos (sep : Char) (s : String) : 0 < (pySplit sep s).length := by
  unfold pySplit
  rw [List.length_map]
  cases h : splitOnChar sep s.data with
  | nil => exact absurd h (splitOnChar_ne_nil sep s.data)
  | cons a b => simp

lemma isRetained_nil (csq : String) : isRetained [] csq = false := by
  unfold isRetained
  rw [beq_eq_false_iff_ne]
  intro h
  exact absurd (h ▸ pySplit_length_pos '|' csq) (by simp)

lemma selectBest_nil_fields (blocks : List String) : selectBest [] blocks = none := by
  rw [selectBest_eq]
  have hf : blocks.filter (isRetained []) = [] := by
    rw [List.filter_eq_nil_iff]
    intro a _
    simp [isRetained_nil]
  rw [hf]
  rfl

/-- C1. Canonical selection: among the retained sub-blocks of a variant's CSQ
payload, the selector returns the first canonical one (scanning in order,
stopping at the first match); if none is canonical it returns the first
retained sub-block; and a line none of whose sub-blocks are retained produces
no output row. -/
theorem canonical_selection_policy :
    (∀ fields blocks, selectBest fields blocks =
        match (blocks.filter (isRetained fields)).find? (isCanonical fields) with
        | some c => some c
        | none => (blocks.filter (isRetained fields)).head?) ∧
    (∀ fields line parts payload,
        lineInfoPayload line = some (parts, payload) →
        (pySplit ',' payload).filter (isRetained fields) = [] →
        lineRow fields line = none) := by
  refine ⟨selectBest_eq, ?_⟩
  intro fields line parts payload hpp hfil
  unfold lineRow
  rw [hpp]
  have hsel : selectBest fields (pySplit ',' payload) = none := by
    rw [selectBest_eq, hfil]
    rfl
  simp [hsel]

/-- C1 witness: a payload whose only sub-block has the wrong field count is
entirely discarded, so the line yields no row. -/
theorem canonical_selection_policy_witness :
    lineRow ["A", "B"] "1\t100\t.\tC\tA\t.\t.\tCSQ=x|y|z" = none :=
  canonical_selection_policy.2 ["A", "B"] "1\t100\t.\tC\tA\t.\t.\tCSQ=x|y|z"
    ["1", "100", ".", "C", "A", ".", ".", "CSQ=x|y|z"] "x|y|z" (by decide) (by decide)

lemma csq_marker_not_chrom (l : String) :
    pyStartsWith "##INFO=<ID=CSQ" l = true → pyStartsWith "#CHROM" l = false := by
  intro h
  unfold pyStartsWith at h ⊢
  cases hd : l.data with
  | nil => rw [hd] at h; exact absurd h (by decide)
  | cons a as =>
    cases as with
    | nil =>
      rw [hd] at h
      have hh : (('#' == a) && leadsWith "#INFO=<ID=CSQ".data []) = true := h
      rw [show leadsWith "#INFO=<ID=CSQ".data ([] : List Char) = false from by decide] at hh
      simp at hh
    | cons b bs =>
      rw [hd] at h
      have hh : (('#' == a) && (('#' == b) && leadsWith "INFO=<ID=CSQ".data bs)) = true := h
      have hb : ('#' == b) = true := by
        simp only [Bool.and_eq_true] at hh
        exact hh.2.1
      have hbeq : b = '#' := (beq_iff_eq.mp hb).symm
      subst hbeq
      show (('#' == a) && (('C' == '#') && leadsWith "HROM".data bs)) = false
      simp [show (('C' == '#') = false) from by decide]

lemma csqHeaderGo_nil (lines : List String)
    (h : ∀ l ∈ lines.takeWhile (fun s => !(pyStartsWith "#CHROM" s)),
        pyStartsWith "##INFO=<ID=CSQ" l = true → formatClause l = none) :
    csqHeaderGo [] lines = [] := by
  induction lines with
  | nil => rfl
  | cons line rest ih =>
    cases hch : pyStartsWith "#CHROM" line with
    | true =>
      have hm : pyStartsWith "##INFO=<ID=CSQ" line = false := by
        cases hmm : pyStartsWith "##INFO=<ID=CSQ" line with
        | false => rfl
        | true => rw [csq_marker_not_chrom line hmm] at hch; exact absurd hch (by simp)
      simp [csqHeaderGo, hm, hch]
    | false =>
      have hmem : line ∈ (line :: rest).takeWhile (fun s => !(pyStartsWith "#CHROM" s)) := by
        simp [List.takeWhile_cons, hch]
      have hrest : ∀ l ∈ rest.takeWhile (fun s => !(pyStartsWith "#CHROM" s)),
          pyStartsWith "##INFO=<ID=CSQ" l = true → formatClause l = none := by
        intro l hl
        refine h l ?_
        simp [List.takeWhile_cons, hch, hl]
      cases hm : pyStartsWith "##INFO=<ID=CSQ" line with
      | false => simpa [csqHeaderGo, hm, hch] using ih hrest
      | true =>
        have hf := h line hmem hm
        simpa [csqHeaderGo, hm, hch, hf] using ih hrest

/-- C3 amended. Schema mismatch handling: a selected sub-block always has the
matching value count (mismatched sub-blocks are discarded by the total
selection function, never failing the file); if no header line before `#CHROM`
both carries the CSQ marker and a parsable Format clause, the captured field
list stays empty; with an empty field list every sub-block is discarded, so
every line produces no record. But zero records are not a reportable zero-row
outcome in the batch script: its frame then lacks the SYMBOL column and the
unguarded merge raises KeyError, aborting the run, while a nonempty record
list reaches the merge; only the app's builder returns the zero-row result
without raising. -/
theorem schema_mismatch_handling :
    (∀ fields blocks b, selectBest fields blocks = some b → isRetained fields b = true) ∧
    (∀ lines : List String,
        (∀ l ∈ lines.takeWhile (fun s => !(pyStartsWith "#CHROM" s)),
            pyStartsWith "##INFO=<ID=CSQ" l = true → formatClause l = none) →
        parse_csq_header lines = []) ∧
    (∀ blocks, selectBest [] blocks = none) ∧
    (∀ line, lineRow [] line = none) ∧
    (∀ lines : List String,
        lines.filterMap (lineRow (parse_csq_header lines)) = [] →
        scriptBuildToMerge lines = Except.error "KeyError") ∧
    (∀ lines : List String,
        lines.filterMap (lineRow (parse_csq_header lines)) ≠ [] →
        scriptBuildToMerge lines =
          Except.ok (lines.filterMap (lineRow (parse_csq_header lines)))) ∧
    (∀ lines : List String,
        appBuildToMerge lines =
          Except.ok (lines.filterMap (lineRow (parse_csq_header lines)))) := by
  refine ⟨?_, csqHeaderGo_nil, selectBest_nil_fields, ?_, ?_, ?_, ?_⟩
  · intro fields blocks b h
    rw [selectBest_eq] at h
    cases hf : (blocks.filter (isRetained fields)).find? (isCanonical fields) with
    | some c =>
      rw [hf] at h
      have hb : b = c := by injection h with h'; exact h'.symm
      subst hb
      exact List.of_mem_filter (List.mem_of_find?_eq_some hf)
    | none =>
      rw [hf] at h
      cases hl : blocks.filter (isRetained fields) with
      | nil => rw [hl] at h; exact absurd h (by simp)
      | cons x xs =>
        rw [hl] at h
        have hb : b = x := by injection h with h'; exact h'.symm
        subst hb
        have : b ∈ blocks.filter (isRetained fields) := by rw [hl]; exact List.mem_cons_self b xs
        exact List.of_mem_filter this
  · intro line
    unfold lineRow
    cases h : lineInfoPayload line with
    | none => rfl
    | some pp => simp [h, selectBest_nil_fields]
  · intro lines h
    unfold scriptBuildToMerge
    rw [h]
    rfl
  · intro lines h
    unfold scriptBuildToMerge
    cases hx : lines.filterMap (lineRow (parse_csq_header lines)) with
    | nil => exact absurd hx h
    | cons a t => rfl
  · intro lines
    unfold appBuildToMerge
    cases hx : lines.filterMap (lineRow (parse_csq_header lines)) with
    | nil => rfl
    | cons a t => rfl

/-- C3 witness: a file whose only CSQ-marker line lacks the Format clause
captures no fields, a retained selection really is retained, and a file with
zero built records makes the batch script's merge raise. -/
theorem schema_mismatch_handling_witness :
    parse_csq_header ["##INFO=<ID=CSQX", "#CHROM\tPOS", "1\t2"] = [] ∧
    isRetained ["A"] "x" = true ∧
    scriptBuildToMerge ["#CHROM\tPOS"] = Except.error "KeyError" :=
  ⟨schema_mismatch_handling.2.1 ["##INFO=<ID=CSQX", "#CHROM\tPOS", "1\t2"] (by decide),
   schema_mismatch_handling.1 ["A"] ["x"] "x" (by decide),
   schema_mismatch_handling.2.2.2.2.1 ["#CHROM\tPOS"] (by decide)⟩

/-- C3 counterexample: on a file whose header never declares the CSQ schema,
every sub-block is discarded and zero records are built, but the batch script
then crashes instead of emitting a reportable zero-row output: the empty frame
from `from_records([])` has no SYMBOL column and the unguarded
`merge(left_on='SYMBOL')` raises an uncaught KeyError. -/
theorem schema_missing_crash_counterexample :
    parse_csq_header ["#CHROM\tPOS", "1\t100\t.\tC\tA\t.\t.\tCSQ=x|y"] = [] ∧
    ["#CHROM\tPOS", "1\t100\t.\tC\tA\t.\t.\tCSQ=x|y"].filterMap
        (lineRow (parse_csq_header ["#CHROM\tPOS", "1\t100\t.\tC\tA\t.\t.\tCSQ=x|y"])) = [] ∧
    scriptBuildToMerge ["#CHROM\tPOS", "1\t100\t.\tC\tA\t.\t.\tCSQ=x|y"] =
      Except.error "KeyError" :=
  ⟨by decide, by decide, rfl⟩

/-- C2. Label resolution is a set-membership test with pathogenic precedence:
label 1 iff the term set contains Pathogenic or Likely_pathogenic; label 0 iff
it does not but contains Benign or Likely_benign; no label otherwise. A line
with CLNSIG value "Pathogenic,Benign" resolves to 1 and one with
"Uncertain_significance" alone records no label. -/
theorem label_resolution_policy :
    (∀ sigs : List String,
        (labelOfSigs sigs = some 1 ↔ "Pathogenic" ∈ sigs ∨ "Likely_pathogenic" ∈ sigs) ∧
        (labelOfSigs sigs = some 0 ↔
          ¬("Pathogenic" ∈ sigs ∨ "Likely_pathogenic" ∈ sigs) ∧
            ("Benign" ∈ sigs ∨ "Likely_benign" ∈ sigs)) ∧
        (labelOfSigs sigs = none ↔
          ¬("Pathogenic" ∈ sigs ∨ "Likely_pathogenic" ∈ sigs) ∧
            ¬("Benign" ∈ sigs ∨ "Likely_benign" ∈ sigs))) ∧
    lineLabel "1\t100\t.\tA\tG\t.\t.\tCLNSIG=Pathogenic,Benign" = some 1 ∧
    lineLabel "1\t100\t.\tA\tG\t.\t.\tCLNSIG=Uncertain_significance" = none := by
  refine ⟨?_, by decide, by decide⟩
  intro sigs
  have hp : (sigs.contains "Pathogenic" || sigs.contains "Likely_pathogenic") = true ↔
      ("Pathogenic" ∈ sigs ∨ "Likely_pathogenic" ∈ sigs) := by
    simp [List.elem_iff]
  have hb : (sigs.contains "Benign" || sigs.contains "Likely_benign") = true ↔
      ("Benign" ∈ sigs ∨ "Likely_benign" ∈ sigs) := by
    simp [List.elem_iff]
  unfold labelOfSigs
  by_cases h1 : ("Pathogenic" ∈ sigs ∨ "Likely_pathogenic" ∈ sigs)
  · have hb1 := hp.mpr h1
    simp [hb1, h1]
  · have hb1 : (sigs.contains "Pathogenic" || sigs.contains "Likely_pathogenic") = false := by
      cases hx : (sigs.contains "Pathogenic" || sigs.contains "Likely_pathogenic") with
      | false => rfl
      | true => exact absurd (hp.mp hx) h1
    by_cases h2 : ("Benign" ∈ sigs ∨ "Likely_benign" ∈ sigs)
    · have hb2 := hb.mpr h2
      simp [hb1, hb2, h1, h2]
    · have hb2 : (sigs.contains "Benign" || sigs.contains "Likely_benign") = false := by
        cases hx : (sigs.contains "Benign" || sigs.contains "Likely_benign") with
        | false => rfl
        | true => exact absurd (hb.mp hx) h2
      simp [hb1, hb2, h1, h2]

/-- C2 witness: the documented precedence on a conflicting set. -/
theorem label_resolution_policy_witness :
    labelOfSigs ["Pathogenic", "Benign"] = some 1 :=
  ((label_resolution_policy.1 ["Pathogenic", "Benign"]).1).mpr (Or.inl (by simp))

/-! ## Lemmas about the deduplicated left join -/

lemma dropDupGo_filter {β : Type} (l : List (String × β)) :
    ∀ (seen : List String) (sym : String),
      (dropDupGo seen l).filter (fun g => g.1 == sym) =
        if sym ∈ seen then ([] : List (String × β))
        else (l.find? (fun g => g.1 == sym)).toList := by
  induction l with
  | nil => intro seen sym; simp [dropDupGo]
  | cons g rest ih =>
    intro seen sym
    by_cases hs : g.1 ∈ seen
    · simp only [dropDupGo, if_pos hs]
      rw [ih seen sym]
      by_cases hsym : sym ∈ seen
      · simp [hsym]
      · have hne : (g.1 == sym) = false :=
          beq_eq_false_iff_ne.mpr (fun he => hsym (he ▸ hs))
        simp [hsym, List.find?_cons, hne]
    · simp only [dropDupGo, if_neg hs]
      rw [List.filter_cons, ih (g.1 :: seen) sym]
      by_cases hg : (g.1 == sym) = true
      · have hgs : g.1 = sym := beq_iff_eq.mp hg
        have hseen : sym ∉ seen := fun hx => hs (hgs ▸ hx)
        have hcons : sym ∈ g.1 :: seen := by
          rw [hgs]
          exact List.mem_cons_self sym seen
        rw [if_pos hg, if_pos hcons, if_neg hseen]
        simp [hg]
      · have hgs : g.1 ≠ sym := fun h => hg (beq_iff_eq.mpr h)
        have hgf : (g.1 == sym) = false := beq_eq_false_iff_ne.mpr hgs
        have hcons : (sym ∈ g.1 :: seen) ↔ sym ∈ seen := by
          constructor
          · intro hx
            rcases List.mem_cons.mp hx with he | hx'
            · exact absurd he.symm hgs
            · exact hx'
          · exact fun hx => List.mem_cons_of_mem _ hx
        simp only [hgf, Bool.false_eq_true, if_false, hcons]
        by_cases hsym : sym ∈ seen
        · simp [hsym]
        · simp [hsym, List.find?_cons, hgf]

lemma dedup_filter {β : Type} (gtex : List (String × β)) (sym : String) :
    (drop_duplicates gtex).filter (fun g => g.1 == sym) =
      (gtex.find? (fun g => g.1 == sym)).toList := by
  have h := dropDupGo_filter gtex [] sym
  simpa [drop_duplicates] using h

lemma dedup_find? {β : Type} (gtex : List (String × β)) (sym : String) :
    (drop_duplicates gtex).find? (fun g => g.1 == sym) =
      gtex.find? (fun g => g.1 == sym) := by
  rw [← List.filter_head? (fun g => g.1 == sym) (drop_duplicates gtex), dedup_filter]
  cases gtex.find? (fun g => g.1 == sym) <;> rfl

lemma mergeLeft_dedup {α β : Type} (df : List (String × α)) (gtex : List (String × β)) :
    mergeLeft df (drop_duplicates gtex) =
      df.map (fun r =>
        (r, ((drop_duplicates gtex).find? (fun g => g.1 == r.1)).map (fun g => g.2))) := by
  induction df with
  | nil => rfl
  | cons r rest ih =>
    rw [show mergeLeft (r :: rest) (drop_duplicates gtex) =
        (match (drop_duplicates gtex).filter (fun g => g.1 == r.1) with
          | [] => [(r, (none : Option β))]
          | ms => ms.map (fun g => (r, some g.2))) ++ mergeLeft rest (drop_duplicates gtex)
      from List.flatMap_cons ..]
    rw [dedup_filter, List.map_cons, ih, dedup_find?]
    cases hg : gtex.find? (fun g => g.1 == r.1) with
    | none => simp
    | some g => simp

/-- C5. The expression join is a left join on gene symbol after first-wins
deduplication: the joined table is exactly the variant table with an optional
first-match lookup attached, so the row count is unchanged; deduplication
keeps the first row per gene; rows whose symbol matches no expression row get
an absent (`none`) value from the join; and the absent value becomes exactly
0.0 at the matrix-build fill step `fillna(0.0)`, which is a separate later
function. -/
theorem expression_left_join :
    (∀ (α β : Type) (df : List (String × α)) (gtex : List (String × β)),
        mergeLeft df (drop_duplicates gtex) =
          df.map (fun r =>
            (r, ((drop_duplicates gtex).find? (fun g => g.1 == r.1)).map (fun g => g.2)))) ∧
    (∀ (α β : Type) (df : List (String × α)) (gtex : List (String × β)),
        (mergeLeft df (drop_duplicates gtex)).length = df.length) ∧
    (∀ (β : Type) (gtex : List (String × β)) (sym : String),
        (drop_duplicates gtex).find? (fun g => g.1 == sym) =
          gtex.find? (fun g => g.1 == sym)) ∧
    (∀ (α β : Type) (df : List (String × α)) (gtex : List (String × β)) (r : String × α),
        r ∈ df → gtex.find? (fun g => g.1 == r.1) = none →
        (r, (none : Option β)) ∈ mergeLeft df (drop_duplicates gtex)) ∧
    (fillExpr none = (0, 0) ∧ ∀ v : ℚ × ℚ, fillExpr (some v) = v) := by
  refine ⟨fun α β => mergeLeft_dedup, ?_, fun β => dedup_find?, ?_, rfl, fun v => rfl⟩
  · intro α β df gtex
    rw [mergeLeft_dedup, List.length_map]
  · intro α β df gtex r hr hnone
    rw [mergeLeft_dedup]
    have : ((drop_duplicates gtex).find? (fun g => g.1 == r.1)).map
        (fun g => g.2) = (none : Option β) := by
      rw [dedup_find?, hnone]
      rfl
    exact List.mem_map.mpr ⟨r, hr, by rw [this]⟩

/-- C5 witness: a variant whose gene symbol is absent from the expression
table keeps a null value through the join. -/
theorem expression_left_join_witness :
    ((("TTN" : String), (0 : Nat)), (none : Option ℚ)) ∈
      mergeLeft [(("TTN" : String), (0 : Nat))]
        (drop_duplicates [(("BRCA1" : String), (1 : ℚ))]) :=
  expression_left_join.2.2.2.1 Nat ℚ [("TTN", 0)] [("BRCA1", 1)] ("TTN", 0)
    (by simp) (by decide)

/-! ## Lemmas about the reference subset extractor -/

lemma by_pos_contains (triples : List Triple) (p : Int) (r a : String) :
    (by_pos triples p).contains (r, a) = true ↔ (p, r, a) ∈ triples := by
  unfold by_pos
  rw [List.elem_iff]
  constructor
  · intro h
    obtain ⟨t, ht, he⟩ := List.mem_map.mp h
    obtain ⟨p', r', a'⟩ := t
    have hp : p' = p := by
      have := (List.mem_filter.mp ht).2
      exact beq_iff_eq.mp this
    have hr : r' = r := congrArg Prod.fst he
    have ha : a' = a := congrArg Prod.snd he
    have hm := (List.mem_filter.mp ht).1
    rw [hp, hr, ha] at hm
    exact hm
  · intro h
    exact List.mem_map.mpr ⟨(p, r, a), List.mem_filter.mpr ⟨h, by simp⟩, rfl⟩

lemma runExtract_ok_elim (catalog : String → Option (List String)) (vcf : List String)
    (out : List String) (n : Nat) (h : runExtract catalog vcf = RunOutcome.ok out n) :
    ∃ c0 t0 rest fl rows,
      parse_vcf_variants vcf = (c0, t0) :: rest ∧ catalog c0 = some fl ∧
      headerOk (fl.headD "") = true ∧
      scanChroms catalog ((c0, t0) :: rest) = Except.ok rows ∧
      rows ≠ [] ∧ out = fl.headD "" :: rows ∧ n = rows.length := by
  unfold runExtract at h
  split at h
  · exact absurd h (by simp)
  next c0 t0 rest hparse =>
    split at h
    · exact absurd h (by simp)
    next fl hcat =>
      by_cases hhdr : headerOk (fl.headD "") = true
      · rw [if_pos hhdr] at h
        split at h
        · exact absurd h (by simp)
        next rows hscan =>
          by_cases hlen : rows.length = 0
          · rw [if_pos hlen] at h
            exact absurd h (by simp)
          · rw [if_neg hlen] at h
            have hout : out = fl.headD "" :: rows ∧ n = rows.length := by
              cases h
              exact ⟨rfl, rfl⟩
            exact ⟨c0, t0, rest, fl, rows, hparse, hcat, hhdr, hscan,
              fun hnil => hlen (by rw [hnil]; rfl), hout.1, hout.2⟩
      · rw [if_neg hhdr] at h
        exact absurd h (by simp)

lemma scanChroms_error_of_missing (catalog : String → Option (List String))
    (l : List (String × List Triple)) (ch : String) (triples : List Triple)
    (hm : (ch, triples) ∈ l) (hc : catalog ch = none) :
    ∃ e, scanChroms catalog l = Except.error e := by
  induction l with
  | nil => cases hm
  | cons hd rest ih =>
    obtain ⟨c, ts⟩ := hd
    cases hcat : catalog c with
    | none => exact ⟨c, by simp [scanChroms, hcat]⟩
    | some shard =>
      rcases List.mem_cons.mp hm with he | hm'
      · have hcc : c = ch := congrArg Prod.fst he.symm
        rw [hcc, hc] at hcat
        cases hcat
      · obtain ⟨e, hse⟩ := ih hm'
        exact ⟨e, by simp [scanChroms, hcat, hse]⟩

/-- Example catalog used in the extraction scenarios: only chromosome 11
resolves, to a shard with one header line and two data rows at positions
100 and 150. -/
def exCat4 : String → Option (List String) :=
  fun ch =>
    if ch == "11" then some ["HDR\tP\tR\tA", "x\t100\tC\tA", "x\t150\tC\tA"] else none

/-- C4. Reference subset extraction: a shard scan skips the shard's own first
line and keeps exactly the rows whose (integer position, ref, alt) triple from
columns 2-4 is in the needed set; a successful run's output is the first
resolved shard's first line followed by the retained rows, so the header
appears exactly once; and on the spec's scenario (chromosome 11 needing
positions 100 and 200, shard with rows at 100 and 150) exactly the row at
position 100 is retained and the run succeeds. -/
theorem reference_subset_extraction :
    (∀ (triples : List Triple) (hd : String) (rest : List String),
        scanShard triples (hd :: rest) = rest.filter (keepRow triples)) ∧
    (∀ (triples : List Triple) (line : String) (p : Int),
        pyInt? ((pySplit '\t' line).getD 1 "") = some p →
        (keepRow triples line = true ↔
          4 ≤ (pySplit '\t' line).length ∧
            (p, (pySplit '\t' line).getD 2 "", (pySplit '\t' line).getD 3 "") ∈ triples)) ∧
    (∀ catalog vcf out n, runExtract catalog vcf = RunOutcome.ok out n →
        ∃ c0 t0 rest fl rows,
          parse_vcf_variants vcf = (c0, t0) :: rest ∧ catalog c0 = some fl ∧
          scanChroms catalog ((c0, t0) :: rest) = Except.ok rows ∧
          out = fl.headD "" :: rows ∧ n = rows.length) ∧
    runExtract exCat4 ["11\t100\t.\tC\tA", "11\t200\t.\tC\tA"]
      = RunOutcome.ok ["HDR\tP\tR\tA", "x\t100\tC\tA"] 1 := by
  refine ⟨fun _ _ _ => rfl, ?_, ?_, by decide⟩
  · intro triples line p hp
    unfold keepRow
    by_cases h4 : (pySplit '\t' line).length < 4
    · have : ¬ 4 ≤ (pySplit '\t' line).length := by omega
      simp [if_pos h4, this]
    · rw [if_neg h4, hp]
      rw [by_pos_contains]
      have h4' : 4 ≤ (pySplit '\t' line).length := by omega
      simp [h4']
  · intro catalog vcf out n h
    obtain ⟨c0, t0, rest, fl, rows, hparse, hcat, _, hscan, _, hout, hn⟩ :=
      runExtract_ok_elim catalog vcf out n h
    exact ⟨c0, t0, rest, fl, rows, hparse, hcat, hscan, hout, hn⟩

/-- C4 witness: the retention test at a concrete matching row. -/
theorem reference_subset_extraction_witness :
    keepRow [(100, "C", "A")] "x\t100\tC\tA" = true :=
  (reference_subset_extraction.2.1 [(100, "C", "A")] "x\t100\tC\tA" 100
    (by decide)).mpr ⟨by decide, by decide⟩

/-- C7 counterexample: chromosome 11 resolves (with a matching row available)
but chromosome 7 does not, and the whole run aborts with the uncaught
`FileNotFoundError` instead of emitting chromosome 11's rows. -/
theorem shard_failure_counterexample :
    runExtract exCat4 ["11\t100\t.\tC\tA", "7\t200\t.\tG\tT"]
        = RunOutcome.shardNotFound "7" ∧
    exCat4 "11" = some ["HDR\tP\tR\tA", "x\t100\tC\tA", "x\t150\tC\tA"] ∧
    scanShard [(100, "C", "A")] ["HDR\tP\tR\tA", "x\t100\tC\tA", "x\t150\tC\tA"]
        = ["x\t100\tC\tA"] :=
  ⟨by decide, by decide, by decide⟩

/-- C7 amended: when any needed chromosome's shard cannot be resolved from the
catalog, the whole extraction run aborts (the `FileNotFoundError` raised by
`guess_chr_file` is caught nowhere in `main`), so no merged output is produced
even for chromosomes that do resolve. -/
theorem shard_failure_aborts_run :
    ∀ (catalog : String → Option (List String)) (vcf : List String)
      (ch : String) (triples : List Triple),
      (ch, triples) ∈ parse_vcf_variants vcf → catalog ch = none →
      ∀ out n, runExtract catalog vcf ≠ RunOutcome.ok out n := by
  intro catalog vcf ch triples hm hc out n h
  obtain ⟨c0, t0, rest, fl, rows, hparse, hcat, _, hscan, _, _, _⟩ :=
    runExtract_ok_elim catalog vcf out n h
  rw [hparse] at hm
  obtain ⟨e, hse⟩ := scanChroms_error_of_missing catalog ((c0, t0) :: rest) ch triples hm hc
  rw [hscan] at hse
  cases hse

/-- C7 amended witness: the abort at the concrete two-chromosome input. -/
theorem shard_failure_aborts_run_witness :
    runExtract exCat4 ["11\t100\t.\tC\tA", "7\t200\t.\tG\tT"] ≠ RunOutcome.ok [] 0 :=
  shard_failure_aborts_run exCat4 ["11\t100\t.\tC\tA", "7\t200\t.\tG\tT"]
    "7" [(200, "G", "T")] (by decide) (by decide) [] 0

/-- C8. Exit reporting of the extractor: an input with no parseable variants
exits with status 1 (status A, `sys.exit(1)`); a run that scans successfully
but retains zero rows exits with status 2 (status B, `sys.exit(2)`); the two
statuses are distinct and both nonzero; and a zero exit status implies a
successful run with at least one retained row, so an empty subset is never a
silent success. -/
theorem extractor_exit_reporting :
    (∀ catalog vcf, parse_vcf_variants vcf = [] →
        runExtract catalog vcf = RunOutcome.noVariants ∧
          exitCode (runExtract catalog vcf) = 1) ∧
    (∀ catalog vcf c0 t0 rest fl,
        parse_vcf_variants vcf = (c0, t0) :: rest →
        catalog c0 = some fl → headerOk (fl.headD "") = true →
        scanChroms catalog ((c0, t0) :: rest) = Except.ok [] →
        runExtract catalog vcf = RunOutcome.noMatches ∧
          exitCode (runExtract catalog vcf) = 2) ∧
    ((1 : Nat) ≠ 2 ∧ (1 : Nat) ≠ 0 ∧ (2 : Nat) ≠ 0) ∧
    (∀ catalog vcf, exitCode (runExtract catalog vcf) = 0 →
        ∃ out n, runExtract catalog vcf = RunOutcome.ok out n ∧ 0 < n) := by
  refine ⟨?_, ?_, ⟨by omega, by omega, by omega⟩, ?_⟩
  · intro catalog vcf hparse
    have h : runExtract catalog vcf = RunOutcome.noVariants := by
      unfold runExtract
      rw [hparse]
    exact ⟨h, by rw [h]; rfl⟩
  · intro catalog vcf c0 t0 rest fl hparse hcat hhdr hscan
    have h : runExtract catalog vcf = RunOutcome.noMatches := by
      unfold runExtract
      rw [hparse]
      have hhdr' : headerOk (fl.head?.getD "") = true := by
        rw [← List.headD_eq_head?_getD]
        exact hhdr
      simp [hcat, hhdr', hscan]
    exact ⟨h, by rw [h]; rfl⟩
  · intro catalog vcf hz
    cases hr : runExtract catalog vcf with
    | noVariants => rw [hr] at hz; exact absurd hz (by simp [exitCode])
    | badHeader => rw [hr] at hz; exact absurd hz (by simp [exitCode])
    | shardNotFound ch => rw [hr] at hz; exact absurd hz (by simp [exitCode])
    | noMatches => rw [hr] at hz; exact absurd hz (by simp [exitCode])
    | ok out n =>
      obtain ⟨_, _, _, _, rows, _, _, _, _, hne, _, hn⟩ :=
        runExtract_ok_elim catalog vcf out n hr
      refine ⟨out, n, rfl, ?_⟩
      rw [hn]
      exact List.length_pos.mpr hne

/-- C8 witness: status A at the concrete empty input. -/
theorem extractor_exit_reporting_witness :
    exitCode (runExtract (fun _ => none) []) = 1 :=
  (extractor_exit_reporting.1 (fun _ => none) [] (by decide)).2

lemma filterMap_some_map {α β : Type} (f : α → β) (l : List α) :
    l.filterMap (fun a => some (f a)) = l.map f := by
  induction l with
  | nil => rfl
  | cons a t ih => simp [List.filterMap_cons, ih]

lemma filterMap_none_nil {α β : Type} (l : List α) :
    l.filterMap (fun _ => (none : Option β)) = [] := by
  induction l with
  | nil => rfl
  | cons a t ih => simp [List.filterMap_cons, ih]

/-- C10. Multi-allelic expansion in the extractor's variant parsing: a data
line with at least 5 columns and an integer position contributes one needed
triple per comma-separated alternate allele, all under the normalized
chromosome and sharing the line's position and reference; a non-integer
position contributes no triples; and on the same multi-allelic line the
feature builder keeps the whole unsplit alternate string (column 5) in its
record while the extractor produces one triple per allele. -/
theorem multiallelic_expansion :
    (∀ (line ch pos vid ref alt : String) (rest : List String),
        pySplit '\t' line = ch :: pos :: vid :: ref :: alt :: rest →
        (line == "") = false → pyStartsWith "#" line = false →
        (∀ p, pyInt? pos = some p →
            lineTriples line = (pySplit ',' alt).map (fun a => (norm_chr ch, (p, ref, a)))) ∧
        (pyInt? pos = none → lineTriples line = [])) ∧
    (lineRow ["CANONICAL"] "1\t100\t.\tC\tA,G\t.\t.\tCSQ=YES" =
        some (["1", "100", ".", "C", "A,G", ".", ".", "CSQ=YES"], "YES") ∧
      lineTriples "1\t100\t.\tC\tA,G" =
        [("1", (100, "C", "A")), ("1", (100, "C", "G"))]) := by
  refine ⟨?_, by decide, by decide⟩
  intro line ch pos vid ref alt rest hsplit hne hcomment
  have hguard : (line == "" || pyStartsWith "#" line) = false := by
    rw [hne, hcomment]
    rfl
  have hlen : ¬ ((ch :: pos :: vid :: ref :: alt :: rest).length < 5) := by
    simp only [List.length_cons]
    omega
  constructor
  · intro p hp
    unfold lineTriples
    rw [if_neg (by rw [hguard]; simp), hsplit, if_neg hlen]
    simp only [List.getD_cons_succ, List.getD_cons_zero, hp]
    rw [filterMap_some_map]
  · intro hp
    unfold lineTriples
    rw [if_neg (by rw [hguard]; simp), hsplit, if_neg hlen]
    simp only [List.getD_cons_succ, List.getD_cons_zero, hp]
    rw [filterMap_none_nil]

/-- C10 witness: concrete expansion of a two-allele line. -/
theorem multiallelic_expansion_witness :
    lineTriples "2\t5\t.\tAT\tA,G" =
      [("2", (5, "AT", "A")), ("2", (5, "AT", "G"))] :=
  (multiallelic_expansion.1 "2\t5\t.\tAT\tA,G" "2" "5" "." "AT" "A,G" []
    (by decide) (by decide) (by decide)).1 5 (by decide)

/-- C9 counterexample: under the repository's `errors='ignore'` policy an
undecodable unit is dropped from the decoded line, which differs from the
replacement-character substitution the claim describes. -/
theorem decode_replacement_counterexample :
    decodeWith open_text_errors [some 'a', none, some 'b'] = Except.ok ['a', 'b'] ∧
    decodeWith DecodePolicy.replaceErrors [some 'a', none, some 'b'] =
      Except.ok ['a', '�', 'b'] ∧
    (['a', 'b'] : List Char) ≠ ['a', '�', 'b'] :=
  ⟨rfl, rfl, by decide⟩

/-- C9 amended: decoding under the `errors='ignore'` policy every reader in
this repository uses never raises, and yields exactly the validly decoded
characters with the malformed units dropped (no replacement character is
inserted); malformed bytes therefore never abort reading a file. -/
theorem decode_tolerance :
    ∀ units : List (Option Char),
      decodeWith open_text_errors units = Except.ok (units.filterMap id) :=
  fun _ => rfl

/-- C6 counterexample: the batch feature builder (scripts/build_features.py)
aborts on a missing expression table and on a table without a derivable gene
column, contradicting the claim that the pipeline never aborts. -/
theorem join_abort_counterexample :
    scriptGtexJoin [(("BRCA1" : String), (0 : Nat))] none =
        Except.error "FileNotFoundError" ∧
    scriptGtexJoin [(("BRCA1" : String), (0 : Nat))] (some ⟨["foo"], []⟩) =
        Except.error "KeyError" :=
  ⟨rfl, rfl⟩

/-- C6 amended: only the app's feature builder tolerates expression-join
failure — a missing table or one without a derivable gene column leaves the
variant table unchanged with no expression features, silently (the exception
handler is `pass`, no warning) — while the batch script raises
`FileNotFoundError` or `KeyError` and aborts. -/
theorem join_failure_tolerance_amended :
    (∀ (α : Type) (df : List (String × α)), appGtexJoin df none = Sum.inr df) ∧
    (∀ (α : Type) (df : List (String × α)) (t : RawTable),
        hasGeneColumn t.cols = false → appGtexJoin df (some t) = Sum.inr df) ∧
    (∀ (α : Type) (df : List (String × α)),
        scriptGtexJoin df none = Except.error "FileNotFoundError") ∧
    (∀ (α : Type) (df : List (String × α)) (t : RawTable),
        hasGeneColumn t.cols = false →
        scriptGtexJoin df (some t) = Except.error "KeyError") := by
  refine ⟨fun α df => rfl, ?_, fun α df => rfl, ?_⟩
  · intro α df t h
    simp [appGtexJoin, h]
  · intro α df t h
    simp [scriptGtexJoin, h]

/-- C6 amended witness: the app join degrades at a concrete gene-less table. -/
theorem join_failure_tolerance_amended_witness :
    appGtexJoin [(("BRCA1" : String), (0 : Nat))] (some ⟨["foo"], []⟩) =
      Sum.inr [("BRCA1", 0)] :=
  join_failure_tolerance_amended.2.1 Nat [("BRCA1", 0)] ⟨["foo"], []⟩ (by decide)

end CardiacVus
